import Mathlib

/-!
Shallow embedding of the offline-file-convertor application
(`app/main.py`, `app/file_selector.py`).

The external collaborators (`detect_format`, `get_supported_target_formats`,
and the converter classes) are opaque services; their behaviour is passed to
the embedded functions as oracle parameters.  Each embedded function returns,
besides its visible effect, the ordered trace of `convert` invocations it made
and the ordered list of signals it emitted, so that properties about call
counts, call arguments and emission counts can be stated directly.
-/

namespace OfflineFileConvertor

/-- The five specific converter classes that the `if/elif` dispatch of
`ConversionThread.run` can instantiate (`app/main.py`, lines 42-51). -/
inductive ConverterKind
  | document
  | spreadsheet
  | presentation
  | pdf
  | image
deriving DecidableEq

/-- Outcome of one call to an external converter's `convert` method: a normal
Python return of `(success, output_path_or_None)`, or a raised exception. -/
inductive ConvResult
  | ret (success : Bool) (output : Option String)
  | exn (msg : String)
deriving DecidableEq

/-- Behaviour of `detect_format(self.input_path)` (`app/main.py`, line 29): a
normal return of `extension | None`, or a raised exception. -/
inductive DetectResult
  | ret (ext : Option String)
  | exn (msg : String)
deriving DecidableEq

/-- One `convert` invocation made by `ConversionThread.run`, recording the
receiver kind, the exact positional arguments passed, and the call's outcome.
Specific converters are called as
`converter.convert(self.input_path, self.target_extension)` (line 55); the
cross converter is called as
`cross_converter.convert(self.input_path, source_ext, self.target_extension)`
(lines 59 and 66). -/
inductive CallEvent
  | specific (kind : ConverterKind) (path : String) (target : String) (res : ConvResult)
  | cross (path : String) (source : String) (target : String) (res : ConvResult)
deriving DecidableEq

/-- The positional argument list of a recorded `convert` invocation. -/
def CallEvent.args : CallEvent → List String
  | .specific _ p t _ => [p, t]
  | .cross p s t _ => [p, s, t]

/-- Whether a recorded invocation was on the `CrossConverter`. -/
def CallEvent.isCross : CallEvent → Bool
  | .specific _ _ _ _ => false
  | .cross _ _ _ _ => true

/-- The outcome of a recorded invocation. -/
def CallEvent.res : CallEvent → ConvResult
  | .specific _ _ _ r => r
  | .cross _ _ _ r => r

/-- Whether a recorded invocation returned (rather than raised) with
`success = True`. -/
def CallEvent.returnedTrue (e : CallEvent) : Bool :=
  match e.res with
  | .ret true _ => true
  | _ => false

/-- What one execution of `ConversionThread.run` did: the
`conversionFinished (success, message)` emissions in order, and the `convert`
invocations in order. -/
structure RunResult where
  emits : List (Bool × String)
  calls : List CallEvent
deriving DecidableEq

/-- Python `str(...)` of an `output_path_or_None` value, as interpolated by
the f-string that builds the success message (`app/main.py`, line 69). -/
def pyStr : Option String → String
  | none => "None"
  | some s => s

/-- The extension dispatch of `ConversionThread.run` (`app/main.py`, lines
41-51): the `if/elif` chain that selects a specific converter class, `none`
when no branch matches (Python leaves `converter = None`). -/
def dispatch (sourceExt : String) : Option ConverterKind :=
  if sourceExt ∈ ["doc", "docx", "odt", "rtf", "txt"] then some .document
  else if sourceExt ∈ ["xls", "xlsx", "ods", "csv"] then some .spreadsheet
  else if sourceExt ∈ ["ppt", "pptx", "odp"] then some .presentation
  else if sourceExt = "pdf" then some .pdf
  else if sourceExt ∈ ["jpg", "jpeg", "png", "bmp", "gif", "tiff", "tif", "svg", "webp", "ico", "heic"] then some .image
  else none

/-- The message emitted when `detect_format` returns a falsy value
(`app/main.py`, line 32). -/
def msgNoDetect : String := "Could not detect source file format."

/-- Lines 61-66 of `app/main.py`: if `success` is still false, make one
fallback call to `CrossConverter.convert`.  `crossRes` is the outcome that
call would produce.  The guard `not isinstance(converter, CrossConverter)` on
line 63 is always true at this point, because the dispatch on lines 41-51
only ever selects one of the five specific converter classes or leaves
`converter = None`. -/
def fallback (inputPath targetExt sourceExt : String) (success : Bool)
    (output_file : Option String) (calls : List CallEvent)
    (crossRes : ConvResult) :
    Except (String × List CallEvent) (Bool × Option String × List CallEvent) :=
  if success then .ok (success, output_file, calls)
  else
    let calls2 := calls ++ [CallEvent.cross inputPath sourceExt targetExt crossRes]
    match crossRes with
    | .exn m => .error (m, calls2)
    | .ret su out => .ok (su, out, calls2)

/-- The `try` block of `ConversionThread.run` (`app/main.py`, lines 39-66), in
exception-monad style.  `specRes` is the outcome the chosen specific
converter's `convert` would produce; `crossA` and `crossB` are the outcomes of
the first and second `CrossConverter.convert` calls made during this
execution, in call order.  Returns the final `(success, output_file)` pair
and the invocation trace on normal exit, or the exception message and the
trace when a call raises.  Before the block, `success = False` and
`output_file = ""` (lines 35-36). -/
def tryBody (inputPath targetExt sourceExt : String)
    (specRes crossA crossB : ConvResult) :
    Except (String × List CallEvent) (Bool × Option String × List CallEvent) :=
  match dispatch sourceExt with
  | none => fallback inputPath targetExt sourceExt false (some "") [] crossA
  | some kind =>
    let calls0 := [CallEvent.specific kind inputPath targetExt specRes]
    match specRes with
    | .exn m => .error (m, calls0)
    | .ret su out =>
      if su = false ∧ out = none then
        let calls1 := calls0 ++ [CallEvent.cross inputPath sourceExt targetExt crossA]
        match crossA with
        | .exn m => .error (m, calls1)
        | .ret su2 out2 => fallback inputPath targetExt sourceExt su2 out2 calls1 crossB
      else
        fallback inputPath targetExt sourceExt su out calls0 crossA

/-- `ConversionThread.run` (`app/main.py`, lines 27-78), shallowly embedded.
`inputPath` and `targetExt` are the thread's constructor arguments; `detect`
is the behaviour of `detect_format(self.input_path)`; `specRes`, `crossA` and
`crossB` are the outcomes of the (at most one) specific `convert` call and of
the first and second `CrossConverter.convert` calls, in call order.  Note
that `detect_format` is called before the `try` block (line 29): if it
raises, the exception escapes `run` and nothing is emitted.  `if not
source_ext:` on line 31 is Python truthiness: both `None` and the empty
string take the early-return branch. -/
def ConversionThread.run (inputPath targetExt : String) (detect : DetectResult)
    (specRes crossA crossB : ConvResult) : RunResult :=
  match detect with
  | .exn _ => { emits := [], calls := [] }
  | .ret none => { emits := [(false, msgNoDetect)], calls := [] }
  | .ret (some sourceExt) =>
    if sourceExt = "" then { emits := [(false, msgNoDetect)], calls := [] }
    else
      match tryBody inputPath targetExt sourceExt specRes crossA crossB with
      | .ok (success, output_file, calls) =>
        { emits := [(success,
            if success then "Conversion successful! Output: " ++ pyStr output_file
            else "Conversion failed or is not supported.")],
          calls := calls }
      | .error (m, calls) =>
        { emits := [(false, "An error occurred during conversion: " ++ m)],
          calls := calls }

/-- Number of `CrossConverter.convert` invocations in a trace. -/
def crossCount (calls : List CallEvent) : Nat :=
  (calls.filter CallEvent.isCross).length

/-- The invocation trace carried by a `tryBody` result, on either exit. -/
def traceOf :
    Except (String × List CallEvent) (Bool × Option String × List CallEvent) →
      List CallEvent
  | .ok (_, _, calls) => calls
  | .error (_, calls) => calls

/-- The `success` component of the first `conversionFinished` emission
(`false` when nothing was emitted). -/
def emittedSuccess (r : RunResult) : Bool :=
  match r.emits with
  | (b, _) :: _ => b
  | [] => false

/-- A signal emission made by `FileSelector.open_file_dialog`. -/
inductive SelEvent
  | fileSel (path : String)
  | targets (formats : List String)
deriving DecidableEq

/-- `FileSelector.open_file_dialog` (`app/file_selector.py`, lines 18-54),
from the point where the dialog has returned.  `filePath` is the dialog's
result (the empty string when the user cancelled); `detect` is
`detect_format(file_path)`; `getTargets` is `get_supported_target_formats`.
Returns the emitted signals in order.  `if source_ext:` on line 46 is Python
truthiness: both `None` and the empty string take the `else` branch. -/
def FileSelector.open_file_dialog (filePath : String) (detect : Option String)
    (getTargets : String → List String) : List SelEvent :=
  if filePath = "" then [SelEvent.fileSel "", SelEvent.targets []]
  else
    [SelEvent.fileSel filePath,
     SelEvent.targets
       (match detect with
        | none => []
        | some ext => if ext = "" then [] else getTargets ext)]

/-- `ConverterUI._update_convert_button_state` (`app/main.py`, lines
191-195): the boolean passed to `self.convert_button.setEnabled`, as a
function of the file-path field's text and the target combo's current
text. -/
def ConverterUI.update_convert_button_state (filePathText comboText : String) : Bool :=
  let file_selected := !(filePathText == "")
  let target_format_selected :=
    !(["", "No supported conversions", "Select target..."].contains comboText)
  file_selected && target_format_selected

/-! ## Theorems about the claims -/

/-- Claim C8: when `detect_format` returns `None`, `ConversionThread.run`
emits exactly the outcome `(False, "Could not detect source file format.")`
and returns without invoking any converter, not even the cross converter. -/
theorem C8_detect_none_no_converter (inputPath targetExt : String)
    (specRes crossA crossB : ConvResult) :
    ConversionThread.run inputPath targetExt (DetectResult.ret none) specRes crossA crossB
      = { emits := [(false, "Could not detect source file format.")], calls := [] } := rfl

/-- Claim C7: the Convert button is enabled exactly when the file-path field
text is non-empty and the target-format combo's current text is none of "",
"No supported conversions", "Select target...". -/
theorem C7_convert_button_enabled_iff (filePathText comboText : String) :
    ConverterUI.update_convert_button_state filePathText comboText = true ↔
      (filePathText ≠ "" ∧ comboText ≠ "" ∧ comboText ≠ "No supported conversions" ∧
        comboText ≠ "Select target...") := by
  simp [ConverterUI.update_convert_button_state, List.contains_eq_any_beq]

/-- Claim C2: `ConversionThread.run` picks the converter determined by the
fixed extension-to-category table, and no specific converter for any other
extension. -/
theorem C2_dispatch_table :
    (∀ e ∈ ["doc", "docx", "odt", "rtf", "txt"], dispatch e = some ConverterKind.document) ∧
    (∀ e ∈ ["xls", "xlsx", "ods", "csv"], dispatch e = some ConverterKind.spreadsheet) ∧
    (∀ e ∈ ["ppt", "pptx", "odp"], dispatch e = some ConverterKind.presentation) ∧
    dispatch "pdf" = some ConverterKind.pdf ∧
    (∀ e ∈ ["jpg", "jpeg", "png", "bmp", "gif", "tiff", "tif", "svg", "webp", "ico", "heic"],
      dispatch e = some ConverterKind.image) ∧
    (∀ e, e ∉ ["doc", "docx", "odt", "rtf", "txt", "xls", "xlsx", "ods", "csv",
        "ppt", "pptx", "odp", "pdf", "jpg", "jpeg", "png", "bmp", "gif", "tiff",
        "tif", "svg", "webp", "ico", "heic"] → dispatch e = none) := by
  refine ⟨by decide, by decide, by decide, by decide, by decide, ?_⟩
  intro e he
  simp only [List.mem_cons, List.not_mem_nil, or_false, not_or] at he
  simp [dispatch, he]

/-- Claim C2 witness: the table applied to a listed extension and to an
unlisted one. -/
theorem C2_dispatch_table_witness :
    dispatch "docx" = some ConverterKind.document ∧ dispatch "zip" = none := by
  constructor
  · exact C2_dispatch_table.1 "docx" (by decide)
  · exact C2_dispatch_table.2.2.2.2.2 "zip" (by decide)

/-- Claim C10: when the detected extension belongs to none of the five
converter categories, `ConversionThread.run` skips the specific-converter
step entirely and invokes `CrossConverter.convert` exactly once, with the
input path, that source extension, and the target extension. -/
theorem C10_uncategorised_single_cross (inputPath targetExt sourceExt : String)
    (hne : sourceExt ≠ "") (hdisp : dispatch sourceExt = none)
    (specRes crossA crossB : ConvResult) :
    (ConversionThread.run inputPath targetExt (DetectResult.ret (some sourceExt))
        specRes crossA crossB).calls
      = [CallEvent.cross inputPath sourceExt targetExt crossA] := by
  cases crossA <;> simp [ConversionThread.run, tryBody, fallback, hdisp, hne]

/-- Claim C10 witness at the unlisted extension "zip". -/
theorem C10_uncategorised_single_cross_witness :
    (ConversionThread.run "a.zip" "pdf" (DetectResult.ret (some "zip"))
        (ConvResult.ret false none) (ConvResult.ret false none)
        (ConvResult.ret false none)).calls
      = [CallEvent.cross "a.zip" "zip" "pdf" (ConvResult.ret false none)] :=
  C10_uncategorised_single_cross "a.zip" "pdf" "zip" (by decide) (by decide)
    (ConvResult.ret false none) (ConvResult.ret false none) (ConvResult.ret false none)

/-- Claim C9: when the chosen specific converter returns `(False, None)` and
the first `CrossConverter.convert` call returns with `success = False`,
`ConversionThread.run` makes a second `CrossConverter.convert` call with
exactly the same arguments (input path, source extension, target extension)
as the first. -/
theorem C9_second_cross_same_args (inputPath targetExt sourceExt : String)
    (hne : sourceExt ≠ "") (kind : ConverterKind)
    (hdisp : dispatch sourceExt = some kind)
    (out1 : Option String) (crossB : ConvResult) :
    (ConversionThread.run inputPath targetExt (DetectResult.ret (some sourceExt))
        (ConvResult.ret false none) (ConvResult.ret false out1) crossB).calls
      = [CallEvent.specific kind inputPath targetExt (ConvResult.ret false none),
         CallEvent.cross inputPath sourceExt targetExt (ConvResult.ret false out1),
         CallEvent.cross inputPath sourceExt targetExt crossB] := by
  cases crossB <;> simp [ConversionThread.run, tryBody, fallback, hdisp, hne]

/-- Claim C9 witness at a document extension. -/
theorem C9_second_cross_same_args_witness :
    (ConversionThread.run "a.txt" "pdf" (DetectResult.ret (some "txt"))
        (ConvResult.ret false none) (ConvResult.ret false none)
        (ConvResult.ret true (some "out.pdf"))).calls
      = [CallEvent.specific ConverterKind.document "a.txt" "pdf" (ConvResult.ret false none),
         CallEvent.cross "a.txt" "txt" "pdf" (ConvResult.ret false none),
         CallEvent.cross "a.txt" "txt" "pdf" (ConvResult.ret true (some "out.pdf"))] :=
  C9_second_cross_same_args "a.txt" "pdf" "txt" (by decide) ConverterKind.document
    (by decide) none (ConvResult.ret true (some "out.pdf"))

/-- Claim C3 counterexample: the claim quantifies over every behaviour of the
external `detect_format` and converter collaborators, but `detect_format` is
called before the `try` block, so when it raises, the exception escapes
`ConversionThread.run` and the `conversionFinished` signal is emitted zero
times, not exactly once. -/
theorem C3_counterexample_detect_raises :
    ¬ ((ConversionThread.run "a.txt" "pdf" (DetectResult.exn "boom")
        (ConvResult.ret false none) (ConvResult.ret false none)
        (ConvResult.ret false none)).emits.length = 1) := by
  decide

/-- Claim C3 (amended): whenever `detect_format` returns normally (an
extension or `None`), `ConversionThread.run` emits the `conversionFinished`
signal exactly once before returning, for every behaviour of the converter
collaborators, including any `convert` call raising an exception. -/
theorem C3_amended_exactly_one_emit (inputPath targetExt : String)
    (ext : Option String) (specRes crossA crossB : ConvResult) :
    (ConversionThread.run inputPath targetExt (DetectResult.ret ext)
        specRes crossA crossB).emits.length = 1 := by
  cases ext with
  | none => rfl
  | some s =>
    by_cases hs : s = ""
    · simp [ConversionThread.run, hs]
    · simp only [ConversionThread.run, if_neg hs]
      rcases tryBody inputPath targetExt s specRes crossA crossB with ⟨m, calls⟩ | ⟨su, o, calls⟩ <;> rfl

/-- Claim C4: a single execution of `ConversionThread.run` invokes
`CrossConverter.convert` at most twice, whatever the collaborators do. -/
theorem C4_at_most_two_cross_calls (inputPath targetExt : String)
    (detect : DetectResult) (specRes crossA crossB : ConvResult) :
    crossCount (ConversionThread.run inputPath targetExt detect
        specRes crossA crossB).calls ≤ 2 := by
  cases detect with
  | exn m => simp [ConversionThread.run, crossCount]
  | ret o =>
    cases o with
    | none => simp [ConversionThread.run, crossCount]
    | some s =>
      by_cases hs : s = ""
      case pos => simp [ConversionThread.run, hs, crossCount]
      case neg =>
        simp only [ConversionThread.run, if_neg hs]
        have h : ∀ r : Except (String × List CallEvent) (Bool × Option String × List CallEvent),
            r = tryBody inputPath targetExt s specRes crossA crossB →
            crossCount (match r with
              | .ok (_, _, calls) => calls
              | .error (_, calls) => calls) ≤ 2 := by
          intro r hr
          unfold tryBody at hr
          cases hdisp : dispatch s with
          | none =>
            rw [hdisp] at hr
            unfold fallback at hr
            cases crossA <;> simp at hr <;> subst hr <;>
              simp [crossCount, CallEvent.isCross]
          | some kind =>
            rw [hdisp] at hr
            cases specRes with
            | exn m => subst hr; simp [crossCount, CallEvent.isCross]
            | ret su out =>
              simp only at hr
              by_cases hc : su = false ∧ out = none
              · rw [if_pos hc] at hr
                cases crossA with
                | exn m => subst hr; simp [crossCount, CallEvent.isCross]
                | ret su2 out2 =>
                  simp only [fallback] at hr
                  cases su2 with
                  | true => simp at hr; subst hr; simp [crossCount, CallEvent.isCross]
                  | false =>
                    simp only [if_neg (Bool.false_ne_true)] at hr
                    cases crossB <;> simp at hr <;> subst hr <;>
                      simp [crossCount, CallEvent.isCross]
              · rw [if_neg hc] at hr
                simp only [fallback] at hr
                cases su with
                | true => simp at hr; subst hr; simp [crossCount, CallEvent.isCross]
                | false =>
                  simp only [if_neg (Bool.false_ne_true)] at hr
                  cases crossA <;> simp at hr <;> subst hr <;>
                    simp [crossCount, CallEvent.isCross]
        have h2 := h (tryBody inputPath targetExt s specRes crossA crossB) rfl
        rcases htb : tryBody inputPath targetExt s specRes crossA crossB with ⟨m, calls⟩ | ⟨su, o2, calls⟩ <;>
          rw [htb] at h2 <;> simpa using h2

/-- Helper: every invocation `fallback` adds to a trace is the recorded
cross call; everything else was already in the trace. -/
theorem fallback_calls_shape (inputPath targetExt sourceExt : String)
    (success : Bool) (output_file : Option String) (calls : List CallEvent)
    (crossRes : ConvResult) :
    ∀ e ∈ traceOf (fallback inputPath targetExt sourceExt success output_file calls crossRes),
      e ∈ calls ∨ e = CallEvent.cross inputPath sourceExt targetExt crossRes := by
  intro e he
  unfold fallback traceOf at he
  cases success with
  | true => simp at he; exact Or.inl he
  | false => cases crossRes <;> simp at he <;> tauto

/-- Helper: every invocation recorded by `tryBody` is either a specific call
on the dispatched converter with arguments `(inputPath, targetExt)`, or a
cross call with arguments `(inputPath, sourceExt, targetExt)`. -/
theorem tryBody_calls_shape (inputPath targetExt sourceExt : String)
    (specRes crossA crossB : ConvResult) :
    ∀ e ∈ traceOf (tryBody inputPath targetExt sourceExt specRes crossA crossB),
      (∃ k r, e = CallEvent.specific k inputPath targetExt r) ∨
      (∃ r, e = CallEvent.cross inputPath sourceExt targetExt r) := by
  intro e he
  unfold tryBody at he
  cases hdisp : dispatch sourceExt with
  | none =>
    rw [hdisp] at he
    rcases fallback_calls_shape _ _ _ _ _ _ _ e he with h | h
    · simp at h
    · exact Or.inr ⟨crossA, h⟩
  | some kind =>
    rw [hdisp] at he
    cases specRes with
    | exn m =>
      simp [traceOf] at he
      exact Or.inl ⟨kind, ConvResult.exn m, he⟩
    | ret su out =>
      simp only at he
      by_cases hc : su = false ∧ out = none
      · rw [if_pos hc] at he
        cases crossA with
        | exn m2 =>
          simp [traceOf] at he
          rcases he with he | he
          · exact Or.inl ⟨kind, ConvResult.ret su out, he⟩
          · exact Or.inr ⟨ConvResult.exn m2, he⟩
        | ret su2 out2 =>
          rcases fallback_calls_shape _ _ _ _ _ _ _ e he with h | h
          · simp at h
            rcases h with h | h
            · exact Or.inl ⟨kind, ConvResult.ret su out, h⟩
            · exact Or.inr ⟨ConvResult.ret su2 out2, h⟩
          · exact Or.inr ⟨crossB, h⟩
      · rw [if_neg hc] at he
        rcases fallback_calls_shape _ _ _ _ _ _ _ e he with h | h
        · simp at h
          exact Or.inl ⟨kind, ConvResult.ret su out, h⟩
        · exact Or.inr ⟨crossA, h⟩

/-- Helper: when the detected extension is truthy, the invocation trace of
`ConversionThread.run` is the trace of its `try` block. -/
theorem run_calls_eq_tryBody (inputPath targetExt sourceExt : String)
    (hne : sourceExt ≠ "") (specRes crossA crossB : ConvResult) :
    (ConversionThread.run inputPath targetExt (DetectResult.ret (some sourceExt))
        specRes crossA crossB).calls
      = traceOf (tryBody inputPath targetExt sourceExt specRes crossA crossB) := by
  simp only [ConversionThread.run, if_neg hne]
  rcases htb : tryBody inputPath targetExt sourceExt specRes crossA crossB with ⟨m, calls⟩ | ⟨su, o, calls⟩ <;>
    simp [traceOf]

/-- Claim C5 counterexample: `CrossConverter.convert` is invoked with three
positional arguments `(input_path, source_ext, target_extension)`, not with
the two arguments `(path, target_extension)` of the stated contract.
Concretely, for input `"a.zip"`, detected extension `"zip"` and target
`"pdf"`, the single invocation made carries argument list
`["a.zip", "zip", "pdf"]`. -/
theorem C5_counterexample_cross_args :
    ¬ (∀ e ∈ (ConversionThread.run "a.zip" "pdf" (DetectResult.ret (some "zip"))
          (ConvResult.ret false none) (ConvResult.ret false none)
          (ConvResult.ret false none)).calls,
        CallEvent.args e = ["a.zip", "pdf"]) := by
  decide

/-- Claim C5 (amended): every `convert` invocation `ConversionThread.run`
makes on a specific converter passes exactly `(input path, target
extension)`, while every invocation on the cross converter passes exactly
`(input path, source extension, target extension)`. -/
theorem C5_amended_call_args (inputPath targetExt sourceExt : String)
    (specRes crossA crossB : ConvResult) :
    ∀ e ∈ (ConversionThread.run inputPath targetExt (DetectResult.ret (some sourceExt))
        specRes crossA crossB).calls,
      CallEvent.args e = if e.isCross then [inputPath, sourceExt, targetExt]
                         else [inputPath, targetExt] := by
  by_cases hs : sourceExt = ""
  · subst hs
    simp [ConversionThread.run]
  · intro e he
    rw [run_calls_eq_tryBody inputPath targetExt sourceExt hs specRes crossA crossB] at he
    rcases tryBody_calls_shape inputPath targetExt sourceExt specRes crossA crossB e he with
      ⟨k, r, rfl⟩ | ⟨r, rfl⟩ <;> simp [CallEvent.args, CallEvent.isCross]

/-- Claim C5 (amended) witness: the argument lists of the two invocations
made on a `txt` input whose specific converter declines. -/
theorem C5_amended_call_args_witness :
    CallEvent.args (CallEvent.cross "a.zip" "zip" "pdf" (ConvResult.ret false none))
      = ["a.zip", "zip", "pdf"] := by
  have h := C5_amended_call_args "a.zip" "pdf" "zip" (ConvResult.ret false none)
    (ConvResult.ret false none) (ConvResult.ret false none)
    (CallEvent.cross "a.zip" "zip" "pdf" (ConvResult.ret false none)) (by decide)
  simpa using h

/-- Claim C6 counterexample: with a non-empty chosen path whose detected
format is the empty string (which is not `None`), the selector emits
`targetFormatsUpdated` carrying the empty list, not
`get_supported_target_formats("")`; here the collaborator has
`get_supported_target_formats("") = ["pdf"]`. -/
theorem C6_counterexample_empty_extension :
    ¬ (FileSelector.open_file_dialog "a.bin" (some "") (fun _ => ["pdf"])
        = [SelEvent.fileSel "a.bin", SelEvent.targets ["pdf"]]) := by
  decide

/-- Claim C6 (amended): whenever the dialog returns a non-empty path, the
selector emits `fileSelected` carrying that path and then emits
`targetFormatsUpdated` carrying
`get_supported_target_formats(detect_format(path))` when `detect_format(path)`
is non-`None` and non-empty, and the empty list when `detect_format(path)` is
`None` or the empty string. -/
theorem C6_amended_selector_emits (filePath : String) (hp : filePath ≠ "")
    (detect : Option String) (getTargets : String → List String) :
    (∀ ext, detect = some ext → ext ≠ "" →
      FileSelector.open_file_dialog filePath detect getTargets
        = [SelEvent.fileSel filePath, SelEvent.targets (getTargets ext)]) ∧
    ((detect = none ∨ detect = some "") →
      FileSelector.open_file_dialog filePath detect getTargets
        = [SelEvent.fileSel filePath, SelEvent.targets []]) := by
  constructor
  · intro ext hd hne
    subst hd
    simp [FileSelector.open_file_dialog, hp, hne]
  · rintro (hd | hd) <;> subst hd <;> simp [FileSelector.open_file_dialog, hp]

/-- Claim C6 (amended) witness: a selected `docx` file with two supported
targets. -/
theorem C6_amended_selector_emits_witness :
    FileSelector.open_file_dialog "doc1.docx" (some "docx") (fun _ => ["pdf", "txt"])
      = [SelEvent.fileSel "doc1.docx", SelEvent.targets ["pdf", "txt"]] :=
  (C6_amended_selector_emits "doc1.docx" (by decide) (some "docx")
    (fun _ => ["pdf", "txt"])).1 "docx" rfl (by decide)

/-- Claim C1: when the dispatch selects a specific converter and that
converter's `convert` returns with `success = False`,
`ConversionThread.run` invokes `CrossConverter.convert` as a fallback, and
the single terminal outcome it reports has `success = True` exactly when one
of the `convert` invocations it made returned `success = True`. -/
theorem C1_fallback_and_success_agree (inputPath targetExt sourceExt : String)
    (hne : sourceExt ≠ "") (kind : ConverterKind)
    (hdisp : dispatch sourceExt = some kind) (out : Option String)
    (crossA crossB : ConvResult) :
    (ConversionThread.run inputPath targetExt (DetectResult.ret (some sourceExt))
        (ConvResult.ret false out) crossA crossB).emits.length = 1 ∧
    (ConversionThread.run inputPath targetExt (DetectResult.ret (some sourceExt))
        (ConvResult.ret false out) crossA crossB).calls.any CallEvent.isCross = true ∧
    emittedSuccess (ConversionThread.run inputPath targetExt (DetectResult.ret (some sourceExt))
        (ConvResult.ret false out) crossA crossB)
      = (ConversionThread.run inputPath targetExt (DetectResult.ret (some sourceExt))
          (ConvResult.ret false out) crossA crossB).calls.any CallEvent.returnedTrue := by
  rcases out with _ | o
  · rcases crossA with ⟨sa, oa⟩ | ma
    · cases sa with
      | false =>
        rcases crossB with ⟨sb, ob⟩ | mb
        · cases sb <;>
            simp [ConversionThread.run, tryBody, fallback, hdisp, hne, emittedSuccess,
              CallEvent.isCross, CallEvent.returnedTrue, CallEvent.res]
        · simp [ConversionThread.run, tryBody, fallback, hdisp, hne, emittedSuccess,
            CallEvent.isCross, CallEvent.returnedTrue, CallEvent.res]
      | true =>
        simp [ConversionThread.run, tryBody, fallback, hdisp, hne, emittedSuccess,
          CallEvent.isCross, CallEvent.returnedTrue, CallEvent.res]
    · simp [ConversionThread.run, tryBody, fallback, hdisp, hne, emittedSuccess,
        CallEvent.isCross, CallEvent.returnedTrue, CallEvent.res]
  · rcases crossA with ⟨sa, oa⟩ | ma
    · cases sa <;>
        simp [ConversionThread.run, tryBody, fallback, hdisp, hne, emittedSuccess,
          CallEvent.isCross, CallEvent.returnedTrue, CallEvent.res]
    · simp [ConversionThread.run, tryBody, fallback, hdisp, hne, emittedSuccess,
        CallEvent.isCross, CallEvent.returnedTrue, CallEvent.res]

/-- Claim C1 witness: a `txt` input whose specific converter declines and
whose first cross attempt succeeds. -/
theorem C1_fallback_and_success_agree_witness :
    (ConversionThread.run "a.txt" "pdf" (DetectResult.ret (some "txt"))
        (ConvResult.ret false none) (ConvResult.ret true (some "out.pdf"))
        (ConvResult.ret false none)).emits.length = 1 ∧
    (ConversionThread.run "a.txt" "pdf" (DetectResult.ret (some "txt"))
        (ConvResult.ret false none) (ConvResult.ret true (some "out.pdf"))
        (ConvResult.ret false none)).calls.any CallEvent.isCross = true ∧
    emittedSuccess (ConversionThread.run "a.txt" "pdf" (DetectResult.ret (some "txt"))
        (ConvResult.ret false none) (ConvResult.ret true (some "out.pdf"))
        (ConvResult.ret false none))
      = (ConversionThread.run "a.txt" "pdf" (DetectResult.ret (some "txt"))
          (ConvResult.ret false none) (ConvResult.ret true (some "out.pdf"))
          (ConvResult.ret false none)).calls.any CallEvent.returnedTrue :=
  C1_fallback_and_success_agree "a.txt" "pdf" "txt" (by decide) ConverterKind.document
    (by decide) none (ConvResult.ret true (some "out.pdf")) (ConvResult.ret false none)

end OfflineFileConvertor
